import Mathlib

/-!
Verification development for the transfer-learning notebook
(src/Deep Learning and Reinforcement Learning/transfer-learning.ipynb).

The notebook builds two Keras Sequential models, each a pretrained frozen
backbone (ResNet50 or Xception, include_top = false, pooling = avg) followed
by a trainable Dense softmax head with two output nodes, compiles them with
the sgd optimizer and the categorical cross-entropy loss reporting accuracy,
loads labeled images from two class-named directories with an
ImageDataGenerator (backbone-specific preprocessing, horizontal flip as the
only augmentation, target size 224 by 224, one-hot categorical labels), and
runs fit with steps_per_epoch = 6 and validation_steps = 1.

Configuration values are embedded directly from the notebook source.  The
semantics of the external framework operations the notebook calls into
(the SGD update, the fit loop, the generator sampling, the softmax forward
pass, the pseudo-random number generation behind seeding) are not part of
the repository; those definitions carry doc comments starting with
"Modelled from the spec:" and follow the words of spec.md.
-/

namespace TransferLearning

/-- The two pretrained backbone architectures the notebook loads. -/
inductive BackboneArch
  | resnet50
  | xception
  deriving DecidableEq, Repr

/-- Arguments of a Keras pretrained-application call such as
ResNet50(include_top=False, pooling=avg, weights=path).  A `weights` value of
`none` is the Keras default, meaning random initial weights; `some s` loads
pretrained weights from the named file or source. -/
structure BackboneCfg where
  arch : BackboneArch
  include_top : Bool
  pooling : String
  weights : Option String
  deriving DecidableEq, Repr

/-- Arguments of a Keras Dense layer call: number of output nodes and the
activation name. -/
structure DenseCfg where
  units : Nat
  activation : String
  deriving DecidableEq, Repr

/-- A layer of a Sequential model together with its trainable flag.
Keras creates every layer with trainable = true. -/
inductive LayerCfg
  | backbone (cfg : BackboneCfg) (trainable : Bool)
  | dense (cfg : DenseCfg) (trainable : Bool)
  deriving DecidableEq, Repr

/-- The trainable flag of a layer. -/
def LayerCfg.isTrainable : LayerCfg → Bool
  | .backbone _ t => t
  | .dense _ t => t

/-- Set the trainable flag of a layer, as the assignment
layer.trainable = False does in the notebook. -/
def LayerCfg.setTrainable : LayerCfg → Bool → LayerCfg
  | .backbone c _, t => .backbone c t
  | .dense c _, t => .dense c t

/-- A Keras Sequential model: the ordered list of its layers. -/
structure SequentialModel where
  layers : List LayerCfg
  deriving DecidableEq, Repr

/-- The empty Sequential model, as built by the Sequential() call. -/
def Sequential : SequentialModel := ⟨[]⟩

/-- Append a layer, as my_new_model.add(layer) does. -/
def SequentialModel.addLayer (m : SequentialModel) (l : LayerCfg) : SequentialModel :=
  ⟨m.layers ++ [l]⟩

/-- Replace the i-th element of a list by applying f to it. -/
def modifyNth (f : α → α) : Nat → List α → List α
  | _, [] => []
  | 0, a :: as => f a :: as
  | n + 1, a :: as => a :: modifyNth f n as

/-- The assignment my_new_model.layers[i].trainable = t. -/
def SequentialModel.setLayerTrainable (m : SequentialModel) (i : Nat) (t : Bool) :
    SequentialModel :=
  ⟨modifyNth (fun l => l.setTrainable t) i m.layers⟩

/-- The ResNet50 application call of the notebook; Keras creates the layer
with trainable = true. -/
def ResNet50 (top : Bool) (pooling : String) (weights : Option String) : LayerCfg :=
  .backbone ⟨.resnet50, top, pooling, weights⟩ true

/-- The Xception application call of the notebook. -/
def Xception (top : Bool) (pooling : String) (weights : Option String) : LayerCfg :=
  .backbone ⟨.xception, top, pooling, weights⟩ true

/-- The Dense layer call of the notebook. -/
def Dense (units : Nat) (activation : String) : LayerCfg :=
  .dense ⟨units, activation⟩ true

/-- Embedded from the notebook function create_model_from_resnet: a Sequential
model of a ResNet50 backbone (include_top = false, pooling = avg, weights from
the local no-top file) and a Dense softmax head with num_classes = 2 nodes,
with the first layer then marked non-trainable. -/
def create_model_from_resnet : SequentialModel :=
  let num_classes : Nat := 2
  let resnet_weights_path : String :=
    "./input/resnet50/resnet50_weights_tf_dim_ordering_tf_kernels_notop.h5"
  let m := Sequential
  let m := m.addLayer (ResNet50 false "avg" (some resnet_weights_path))
  let m := m.addLayer (Dense num_classes "softmax")
  m.setLayerTrainable 0 false

/-- Embedded from the notebook function create_model_from_xception: the same
construction with an Xception backbone loaded with weights = imagenet. -/
def create_model_from_xception : SequentialModel :=
  let num_classes : Nat := 2
  let m := Sequential
  let m := m.addLayer (Xception false "avg" (some "imagenet"))
  let m := m.addLayer (Dense num_classes "softmax")
  m.setLayerTrainable 0 false

/-- The trainable flag of the i-th layer of a model (false when out of range). -/
def trainableAt (m : SequentialModel) (i : Nat) : Bool :=
  match m.layers.get? i with
  | some l => l.isTrainable
  | none => false

/-- The backbone configuration of the first layer, when the first layer is a
backbone application. -/
def backboneCfgOf (m : SequentialModel) : Option BackboneCfg :=
  match m.layers.get? 0 with
  | some (.backbone c _) => some c
  | _ => none

/-- The Dense configuration of the second layer, when the second layer is a
Dense layer. -/
def headCfgOf (m : SequentialModel) : Option DenseCfg :=
  match m.layers.get? 1 with
  | some (.dense c _) => some c
  | _ => none

/-! ### Training semantics (stochastic gradient descent over trainable layers)

The parameters of either notebook model: the backbone weights as one flat
list, and the weight matrix and bias of the final Dense layer. -/

/-- Parameter state of a two-layer model: backbone weights, head weight
matrix rows, head bias. -/
structure ModelParams where
  backboneW : List ℚ
  headW : List (List ℚ)
  headB : List ℚ
  deriving DecidableEq, Repr

/-- Gradients produced by one mini-batch, one block per parameter block. -/
structure GradUpdate where
  dBackbone : List ℚ
  dHeadW : List (List ℚ)
  dHeadB : List ℚ
  deriving DecidableEq, Repr

/-- Elementwise gradient-descent update p - lr * g. -/
def gdUpdate (lr : ℚ) (p g : List ℚ) : List ℚ :=
  List.zipWith (fun pi gi => pi - lr * gi) p g

/-- Rowwise gradient-descent update of a weight matrix. -/
def gdUpdateRows (lr : ℚ) (p g : List (List ℚ)) : List (List ℚ) :=
  List.zipWith (fun pr gr => gdUpdate lr pr gr) p g

/-- Modelled from the spec: the Trainer "runs a fixed number of
gradient-descent steps over mini-batches", and a frozen layer is "a set of
weights excluded from gradient updates during training".  One SGD step
applies the gradient-descent update to the weights of every layer whose
trainable flag is true and leaves the weights of every frozen layer
unchanged.  Layer 0 holds the backbone weights and layer 1 the Dense head. -/
def sgdStep (m : SequentialModel) (lr : ℚ) (g : GradUpdate) (p : ModelParams) :
    ModelParams :=
  { backboneW := if trainableAt m 0 then gdUpdate lr p.backboneW g.dBackbone else p.backboneW
    headW := if trainableAt m 1 then gdUpdateRows lr p.headW g.dHeadW else p.headW
    headB := if trainableAt m 1 then gdUpdate lr p.headB g.dHeadB else p.headB }

/-- A training run: one SGD step per mini-batch gradient, in order. -/
def trainRun (m : SequentialModel) (lr : ℚ) (gs : List GradUpdate) (p : ModelParams) :
    ModelParams :=
  gs.foldl (fun q g => sgdStep m lr g q) p

/-! ### Forward semantics of the model -/

/-- Dot product of two real vectors represented as lists. -/
def dotR (xs ys : List ℝ) : ℝ :=
  (List.zipWith (fun a b => a * b) xs ys).sum

/-- Modelled from the spec: the softmax activation turns the raw scores of
the Classifier Head into class probabilities, sending z to the vector with
components exp zi divided by the sum of all exp zj. -/
noncomputable def softmax (z : List ℝ) : List ℝ :=
  z.map (fun zi => Real.exp zi / (z.map Real.exp).sum)

/-- Modelled from the spec: the Classifier Head is "a small trainable linear
layer mapping extracted features to class probabilities": an affine map
W x + b followed by the named activation. -/
noncomputable def denseForward (activation : String) (W : List (List ℝ)) (b : List ℝ)
    (x : List ℝ) : List ℝ :=
  let z := List.zipWith (fun wrow bi => dotR wrow x + bi) W b
  if activation = "softmax" then softmax z else z

/-- Modelled from the spec: the Feature Extractor is "a frozen, pretrained
image-to-vector function (external artifact)"; it enters the semantics as an
opaque parameter phi, one function per architecture.  A backbone layer
applies phi, a Dense layer applies denseForward with the head parameters. -/
noncomputable def applyLayer (phi : BackboneArch → List ℝ → List ℝ)
    (W : List (List ℝ)) (b : List ℝ) : LayerCfg → List ℝ → List ℝ
  | .backbone c _, x => phi c.arch x
  | .dense c _, x => denseForward c.activation W b x

/-- The forward pass of a Sequential model: apply the layers in order. -/
noncomputable def SequentialModel.forward (m : SequentialModel)
    (phi : BackboneArch → List ℝ → List ℝ) (W : List (List ℝ)) (b : List ℝ)
    (x : List ℝ) : List ℝ :=
  m.layers.foldl (fun v l => applyLayer phi W b l v) x

/-! ### Compile configuration and the accuracy metric -/

/-- Arguments of the my_new_model.compile call. -/
structure CompileCfg where
  optimizer : String
  loss : String
  metrics : List String
  deriving DecidableEq, Repr

/-- Embedded from the notebook: the compile call for the ResNet50 model. -/
def compile_call_resnet : CompileCfg :=
  ⟨"sgd", "categorical_crossentropy", ["accuracy"]⟩

/-- Embedded from the notebook: the compile call for the Xception model. -/
def compile_call_xception : CompileCfg :=
  ⟨"sgd", "categorical_crossentropy", ["accuracy"]⟩

/-- Number of positions where the predicted class equals the label. -/
def countCorrect (preds labels : List Nat) : Nat :=
  (List.zipWith (fun p l => if p = l then 1 else 0) preds labels).sum

/-- Modelled from the spec: the accuracy metric "represents the fraction of
correct predictions": correct predictions divided by the number of
predictions. -/
def accuracy (preds labels : List Nat) : ℚ :=
  (countCorrect preds labels : ℚ) / (preds.length : ℚ)

/-! ### The data loader: ImageDataGenerator and flow_from_directory -/

/-- Arguments of the ImageDataGenerator call: which backbone-specific
preprocess_input function is attached (none means no preprocessing), and the
augmentation switches.  Keras defaults every augmentation to off; the
notebook passes only preprocessing_function and horizontal_flip = True. -/
structure ImageDataGeneratorCfg where
  preprocessing : Option BackboneArch
  horizontal_flip : Bool
  vertical_flip : Bool := false
  rotation_range : Nat := 0
  width_shift_range : Nat := 0
  height_shift_range : Nat := 0
  zoom_range : Nat := 0
  deriving DecidableEq, Repr

/-- Arguments of a flow_from_directory call. -/
structure FlowCfg where
  directory : String
  target_size : Nat × Nat
  batch_size : Nat
  class_mode : String
  deriving DecidableEq, Repr

/-- Embedded from the notebook (ResNet section): the generator object with
the resnet50 preprocess_input and horizontal flipping. -/
def data_generator_resnet : ImageDataGeneratorCfg :=
  { preprocessing := some .resnet50, horizontal_flip := true }

/-- Embedded from the notebook (Xception section): the generator object with
the xception preprocess_input and horizontal flipping. -/
def data_generator_xception : ImageDataGeneratorCfg :=
  { preprocessing := some .xception, horizontal_flip := true }

/-- The image_size variable of the notebook. -/
def image_size : Nat := 224

/-- Embedded from the notebook: flow_from_directory over the train directory,
batches of 12, categorical labels. -/
def train_generator : FlowCfg :=
  ⟨"./input/urban-and-rural-photos/train", (image_size, image_size), 12, "categorical"⟩

/-- Embedded from the notebook: flow_from_directory over the val directory,
batches of 20, categorical labels. -/
def validation_generator : FlowCfg :=
  ⟨"./input/urban-and-rural-photos/val", (image_size, image_size), 20, "categorical"⟩

/-- Recorded in the notebook output: flow_from_directory found 72 training
images and 20 validation images, each set "belonging to 2 classes". -/
def train_image_count : Nat := 72

/-- Recorded in the notebook output: the validation image count. -/
def val_image_count : Nat := 20

/-- Recorded in the notebook output: the number of classes found, one per
class-named subdirectory of the data directory. -/
def found_class_count : Nat := 2

/-- An image: its height, width and pixel contents. -/
structure Image where
  height : Nat
  width : Nat
  px : Nat → Nat → ℚ

/-- Modelled from the spec: resizing an image to the target size (contents
resampled from the source grid; the exact resampling kernel is external, the
dimensions are what the claims are about). -/
def resize (img : Image) (h w : Nat) : Image :=
  ⟨h, w, fun i j => img.px (i * img.height / h) (j * img.width / w)⟩

/-- Mirror an image left to right. -/
def hflip (img : Image) : Image :=
  ⟨img.height, img.width, fun i j => img.px i (img.width - 1 - j)⟩

/-- Apply the (opaque, backbone-specific) preprocess_input function pf to
every pixel. -/
def applyPre (pf : ℚ → ℚ) (img : Image) : Image :=
  ⟨img.height, img.width, fun i j => pf (img.px i j)⟩

/-- The one-hot vector of length n with a 1 at position c. -/
def oneHot (n c : Nat) : List ℚ :=
  (List.range n).map (fun i => if i = c then 1 else 0)

/-- Modelled from the spec: the Data Loader "iterates labeled images from two
class-named directories, resizing/normalizing and optionally flipping for
augmentation".  One sample drawn from class index c: resize the raw image to
the target size, apply the preprocessing function when one is attached, flip
horizontally when horizontal flipping is on and the augmentation coin comes
up true, and attach the categorical one-hot label. -/
def mkSample (g : ImageDataGeneratorCfg) (f : FlowCfg) (pf : ℚ → ℚ)
    (numClasses : Nat) (img : Image) (c : Nat) (flipCoin : Bool) :
    Image × List ℚ :=
  let resized := resize img f.target_size.1 f.target_size.2
  let pre := match g.preprocessing with
    | some _ => applyPre pf resized
    | none => resized
  let flipped := if g.horizontal_flip && flipCoin then hflip pre else pre
  (flipped, if f.class_mode = "categorical" then oneHot numClasses c else [(c : ℚ)])

/-! ### The fit call -/

/-- Arguments of the my_new_model.fit call that fix the step counts. -/
structure FitCfg where
  steps_per_epoch : Nat
  validation_steps : Nat
  epochs : Nat := 1
  deriving DecidableEq, Repr

/-- Embedded from the notebook: both fit calls pass steps_per_epoch = 6 and
validation_steps = 1, leaving epochs at the Keras default of 1. -/
def fit_call : FitCfg := { steps_per_epoch := 6, validation_steps := 1 }

/-- One step of a fit run: a mini-batch training step or a validation step. -/
inductive PhaseStep
  | train
  | val
  deriving DecidableEq, Repr

/-- Modelled from the spec: the Trainer "runs a fixed number of
gradient-descent steps over mini-batches, reporting loss/accuracy" — fit with
explicit step counts performs exactly steps_per_epoch training steps followed
by exactly validation_steps validation steps, a count fixed by the call
arguments; the sizes of the training and validation generators are passed
but do not enter the schedule. -/
def fitTrace (c : FitCfg) (trainGenImages valGenImages : Nat) : List PhaseStep :=
  List.replicate c.steps_per_epoch .train ++ List.replicate c.validation_steps .val

/-- Modelled from the spec: a directory generator yields its images in an
endless cyclic stream of mini-batches; the first n images it yields are the
epoch order repeated cyclically.  cyclicTake data d n is the list of the
first n images yielded, with d the (unused when data is nonempty) default. -/
def cyclicTake (data : List α) (d : α) (n : Nat) : List α :=
  (List.range n).map (fun k => data.getD (k % data.length) d)

/-- The images consumed by s generator steps of batch size b. -/
def consumedImages (data : List α) (d : α) (b s : Nat) : List α :=
  cyclicTake data d (b * s)

/-! ### Seeding and reproducibility -/

/-- The seed variable of the notebook. -/
def seed : Nat := 123

/-- State of the three random-number generators the notebook seeds. -/
structure SeedState where
  python : Nat
  numpy : Nat
  tensorflow : Nat
  deriving DecidableEq, Repr

/-- Embedded from the notebook seed cell: random.seed(seed),
np.random.seed(seed) and tf.random.set_seed(seed) with seed = 123. -/
def setAllSeeds (s : Nat) : SeedState := ⟨s, s, s⟩

/-- The top-level operations of the notebook, in cell order. -/
inductive NotebookOp
  | setSeeds (s : Nat)
  | buildModel (arch : BackboneArch)
  | showSummary
  | compileModel (c : CompileCfg)
  | makeGenerators (g : ImageDataGeneratorCfg)
  | fitModel (c : FitCfg)
  deriving DecidableEq, Repr

/-- Embedded from the notebook: its code cells in order.  The seed cell is
the first code cell, before any model construction, generator creation or
training. -/
def notebookOps : List NotebookOp :=
  [ .setSeeds seed
  , .buildModel .resnet50
  , .showSummary
  , .compileModel compile_call_resnet
  , .makeGenerators data_generator_resnet
  , .fitModel fit_call
  , .makeGenerators data_generator_xception
  , .buildModel .xception
  , .showSummary
  , .compileModel compile_call_xception
  , .fitModel fit_call ]

/-- Whether an operation draws pseudo-random numbers: building a model draws
the Dense-head initial weights, making generators fixes shuffling and flip
draws, fitting consumes shuffle and flip draws. -/
def NotebookOp.usesRandomness : NotebookOp → Bool
  | .setSeeds _ => false
  | .buildModel _ => true
  | .showSummary => false
  | .compileModel _ => false
  | .makeGenerators _ => true
  | .fitModel _ => true

/-- Modelled from the spec: a pseudo-random generator advances its state by a
fixed deterministic rule; this linear-congruential rule stands for the
(external) generators behind random, numpy and tensorflow. -/
def lcg (s : Nat) : Nat := (1103515245 * s + 12345) % 2147483648

/-- Draw n pseudo-random numbers starting from state s, returning the draws
and the final state. -/
def drawN (s : Nat) : Nat → List Nat × Nat
  | 0 => ([], s)
  | n + 1 =>
    let s1 := lcg s
    let rest := drawN s1 n
    (s1 :: rest.1, rest.2)

/-- The random choices a run of the notebook makes: the Dense-head initial
weight draws, the batch-shuffling draws, and the horizontal-flip coin for
each augmented image. -/
structure RunChoices where
  headInitDraws : List Nat
  shuffleDraws : List Nat
  flipCoins : List Bool
  deriving DecidableEq, Repr

/-- Modelled from the spec: every random choice of a run (head weight
initial values, batch shuffling, flip coins) is drawn, in a fixed order, from
the generator state set by the seed cell; nI, nS and nF are how many draws of
each kind the run consumes. -/
def runChoices (s : Nat) (nI nS nF : Nat) : RunChoices :=
  let drawsI := drawN s nI
  let drawsS := drawN drawsI.2 nS
  let drawsF := drawN drawsS.2 nF
  ⟨drawsI.1, drawsS.1, drawsF.1.map (fun x => x % 2 = 1)⟩

/-! ### Parameter counts -/

/-- Recorded in the notebook model summaries: with include_top = false and
pooling = avg, the ResNet50 backbone outputs a feature vector of shape
(None, 2048) and so does the Xception backbone. -/
def featureDim : BackboneArch → Nat
  | .resnet50 => 2048
  | .xception => 2048

/-- Recorded in the notebook model summaries: the parameter counts of the
two backbone layers (23587712 for resnet50, 20861480 for xception). -/
def backboneParamCount : BackboneArch → Nat
  | .resnet50 => 23587712
  | .xception => 20861480

/-- Output dimension of a layer given its input dimension. -/
def layerOutDim (l : LayerCfg) (inDim : Nat) : Nat :=
  match l with
  | .backbone c _ => featureDim c.arch
  | .dense c _ => c.units

/-- Parameter count of a layer given its input dimension: a Dense layer has
a weight matrix of inDim times units entries plus units biases. -/
def layerParamCount (l : LayerCfg) (inDim : Nat) : Nat :=
  match l with
  | .backbone c _ => backboneParamCount c.arch
  | .dense c _ => inDim * c.units + c.units

/-- Per-layer parameter counts with trainable flags, threading the
dimension through the layer list. -/
def paramTable : List LayerCfg → Nat → List (Nat × Bool)
  | [], _ => []
  | l :: ls, d => (layerParamCount l d, l.isTrainable) :: paramTable ls (layerOutDim l d)

/-- Total parameter count of a model fed inputs of dimension inDim. -/
def totalParams (m : SequentialModel) (inDim : Nat) : Nat :=
  ((paramTable m.layers inDim).map (fun pb => pb.1)).sum

/-- Trainable parameter count: parameters of the layers whose trainable
flag is true. -/
def trainableParams (m : SequentialModel) (inDim : Nat) : Nat :=
  ((paramTable m.layers inDim).map (fun pb => if pb.2 then pb.1 else 0)).sum

/-! ## Helper lemmas -/

/-- The first layer of the ResNet50 model is frozen. -/
theorem trainableAt_resnet_zero : trainableAt create_model_from_resnet 0 = false := by
  decide

/-- The Dense head of the ResNet50 model is trainable. -/
theorem trainableAt_resnet_one : trainableAt create_model_from_resnet 1 = true := by
  decide

/-- The first layer of the Xception model is frozen. -/
theorem trainableAt_xception_zero : trainableAt create_model_from_xception 0 = false := by
  decide

/-- The Dense head of the Xception model is trainable. -/
theorem trainableAt_xception_one : trainableAt create_model_from_xception 1 = true := by
  decide

/-- Any number of SGD steps leaves the backbone weights of a model whose
first layer is frozen unchanged. -/
theorem trainRun_backbone_frozen (m : SequentialModel)
    (h : trainableAt m 0 = false) (lr : ℚ) (gs : List GradUpdate)
    (p : ModelParams) : (trainRun m lr gs p).backboneW = p.backboneW := by
  induction gs generalizing p with
  | nil => rfl
  | cons g gs ih =>
    show (trainRun m lr gs (sgdStep m lr g p)).backboneW = p.backboneW
    rw [ih (sgdStep m lr g p)]
    simp [sgdStep, h]

/-! ## Claims -/

/-- C1: in both model constructors the pretrained backbone added as the first
layer is marked non-trainable, so every SGD training step updates only the
weight matrix and bias of the final Dense layer and leaves the backbone
weights unchanged, over any number of steps. -/
theorem backbone_frozen_only_head_updated :
    (∀ (lr : ℚ) (g : GradUpdate) (p : ModelParams),
      sgdStep create_model_from_resnet lr g p =
        ⟨p.backboneW, gdUpdateRows lr p.headW g.dHeadW, gdUpdate lr p.headB g.dHeadB⟩) ∧
    (∀ (lr : ℚ) (g : GradUpdate) (p : ModelParams),
      sgdStep create_model_from_xception lr g p =
        ⟨p.backboneW, gdUpdateRows lr p.headW g.dHeadW, gdUpdate lr p.headB g.dHeadB⟩) ∧
    (∀ (lr : ℚ) (gs : List GradUpdate) (p : ModelParams),
      (trainRun create_model_from_resnet lr gs p).backboneW = p.backboneW) ∧
    (∀ (lr : ℚ) (gs : List GradUpdate) (p : ModelParams),
      (trainRun create_model_from_xception lr gs p).backboneW = p.backboneW) := by
  refine ⟨fun lr g p => ?_, fun lr g p => ?_, fun lr gs p => ?_, fun lr gs p => ?_⟩
  · simp [sgdStep, trainableAt_resnet_zero, trainableAt_resnet_one]
  · simp [sgdStep, trainableAt_xception_zero, trainableAt_xception_one]
  · exact trainRun_backbone_frozen _ trainableAt_resnet_zero lr gs p
  · exact trainRun_backbone_frozen _ trainableAt_xception_zero lr gs p

/-- C2: each fit call performs exactly one epoch of exactly 6 mini-batch
training steps followed by exactly 1 validation step; the schedule is fixed
by the fit arguments and is the same whatever the generator sizes are. -/
theorem fit_runs_fixed_step_schedule :
    fit_call.epochs = 1 ∧
    (∀ n₁ m₁ n₂ m₂ : Nat, fitTrace fit_call n₁ m₁ = fitTrace fit_call n₂ m₂) ∧
    (∀ n m : Nat,
      (fitTrace fit_call n m).count .train = 6 ∧
      (fitTrace fit_call n m).count .val = 1 ∧
      (fitTrace fit_call n m).length = 7 ∧
      fitTrace fit_call n m =
        [.train, .train, .train, .train, .train, .train, .val]) := by
  exact ⟨rfl, fun _ _ _ _ => rfl, fun _ _ => ⟨rfl, rfl, rfl, rfl⟩⟩

/-- Taking one full cycle from a generator yields the dataset itself. -/
theorem cyclicTake_full (data : List α) (d : α) :
    cyclicTake data d data.length = data := by
  apply List.ext_getElem
  · simp [cyclicTake]
  · intro i h1 h2
    simp only [cyclicTake, List.getElem_map, List.getElem_range]
    rw [Nat.mod_eq_of_lt h2, List.getD_eq_getElem data d h2]

/-- C9: with 72 training images in batches of 12, the 6 training steps of one
epoch consume the training set exactly once, and the single validation step
of batch size 20 consumes all 20 validation images at once. -/
theorem epoch_covers_dataset_exactly_once :
    fit_call.steps_per_epoch * train_generator.batch_size = train_image_count ∧
    fit_call.validation_steps * validation_generator.batch_size = val_image_count ∧
    (∀ (α : Type) (data : List α) (d : α), data.length = train_image_count →
      consumedImages data d train_generator.batch_size fit_call.steps_per_epoch = data) ∧
    (∀ (α : Type) (data : List α) (d : α), data.length = val_image_count →
      consumedImages data d validation_generator.batch_size fit_call.validation_steps = data) := by
  refine ⟨rfl, rfl, fun α data d h => ?_, fun α data d h => ?_⟩
  · have : train_generator.batch_size * fit_call.steps_per_epoch = data.length := by
      rw [h]; rfl
    rw [consumedImages, this, cyclicTake_full]
  · have : validation_generator.batch_size * fit_call.validation_steps = data.length := by
      rw [h]; rfl
    rw [consumedImages, this, cyclicTake_full]

/-- Witness for C9 at the concrete dataset 0, 1, ..., 71 and 0, ..., 19. -/
theorem epoch_covers_dataset_exactly_once_witness :
    consumedImages (List.range 72) 0 train_generator.batch_size
        fit_call.steps_per_epoch = List.range 72 ∧
    consumedImages (List.range 20) 0 validation_generator.batch_size
        fit_call.validation_steps = List.range 20 :=
  ⟨epoch_covers_dataset_exactly_once.2.2.1 Nat (List.range 72) 0 (by simp [train_image_count]),
   epoch_covers_dataset_exactly_once.2.2.2 Nat (List.range 20) 0 (by simp [val_image_count])⟩

/-- Softmax preserves the length of its input. -/
theorem softmax_length (z : List ℝ) : (softmax z).length = z.length := by
  simp [softmax]

/-- The sum of the exponentials of a nonempty list is positive. -/
theorem sum_map_exp_pos (z : List ℝ) (h : z ≠ []) :
    0 < (z.map Real.exp).sum := by
  cases z with
  | nil => exact absurd rfl h
  | cons a t =>
    have h1 : 0 < Real.exp a := Real.exp_pos a
    have h2 : 0 ≤ (t.map Real.exp).sum := by
      apply List.sum_nonneg
      intro x hx
      obtain ⟨y, _, rfl⟩ := List.mem_map.mp hx
      exact (Real.exp_pos y).le
    simp only [List.map_cons, List.sum_cons]
    linarith

/-- Every softmax component is between 0 and 1. -/
theorem softmax_mem_bounds (z : List ℝ) (p : ℝ) (hp : p ∈ softmax z) :
    0 ≤ p ∧ p ≤ 1 := by
  obtain ⟨zi, hzi, rfl⟩ := List.mem_map.mp hp
  have hz : z ≠ [] := by rintro rfl; simp at hzi
  have hS : 0 < (z.map Real.exp).sum := sum_map_exp_pos z hz
  refine ⟨div_nonneg (Real.exp_pos zi).le hS.le, ?_⟩
  rw [div_le_one hS]
  refine List.single_le_sum (fun x hx => ?_) _ (List.mem_map_of_mem Real.exp hzi)
  obtain ⟨y, _, rfl⟩ := List.mem_map.mp hx
  exact (Real.exp_pos y).le

/-- Dividing every entry of a list by c divides its sum by c. -/
theorem sum_map_div_const (l : List ℝ) (c : ℝ) :
    (l.map (fun x => x / c)).sum = l.sum / c := by
  induction l with
  | nil => simp
  | cons a t ih => simp [ih, add_div]

/-- The softmax components of a nonempty list sum to 1. -/
theorem softmax_sum_one (z : List ℝ) (h : z ≠ []) : (softmax z).sum = 1 := by
  have hS : 0 < (z.map Real.exp).sum := sum_map_exp_pos z h
  have hrw : softmax z = (z.map Real.exp).map (fun x => x / (z.map Real.exp).sum) := by
    simp [softmax, List.map_map, Function.comp]
  rw [hrw, sum_map_div_const, div_self hS.ne']

/-- The forward pass of the ResNet50 model is softmax after the affine head
after the backbone. -/
theorem forward_resnet_eq (phi : BackboneArch → List ℝ → List ℝ)
    (W : List (List ℝ)) (b x : List ℝ) :
    create_model_from_resnet.forward phi W b x =
      softmax (List.zipWith (fun wrow bi => dotR wrow (phi .resnet50 x) + bi) W b) := by
  show denseForward "softmax" W b (phi .resnet50 x) = _
  rw [denseForward, if_pos rfl]

/-- The forward pass of the Xception model is softmax after the affine head
after the backbone. -/
theorem forward_xception_eq (phi : BackboneArch → List ℝ → List ℝ)
    (W : List (List ℝ)) (b x : List ℝ) :
    create_model_from_xception.forward phi W b x =
      softmax (List.zipWith (fun wrow bi => dotR wrow (phi .xception x) + bi) W b) := by
  show denseForward "softmax" W b (phi .xception x) = _
  rw [denseForward, if_pos rfl]

/-- C4: each notebook model is the sequential composition of exactly two
stages, an opaque backbone feature extractor (include_top = false,
pooling = avg) followed by a single Dense layer with 2 output nodes, and its
forward pass satisfies model x = softmax (W (phi x) + b). -/
theorem model_is_backbone_then_softmax_dense :
    create_model_from_resnet.layers.length = 2 ∧
    create_model_from_xception.layers.length = 2 ∧
    (backboneCfgOf create_model_from_resnet).map (fun c => c.include_top) = some false ∧
    (backboneCfgOf create_model_from_xception).map (fun c => c.include_top) = some false ∧
    (backboneCfgOf create_model_from_resnet).map (fun c => c.pooling) = some "avg" ∧
    (backboneCfgOf create_model_from_xception).map (fun c => c.pooling) = some "avg" ∧
    headCfgOf create_model_from_resnet = some ⟨2, "softmax"⟩ ∧
    headCfgOf create_model_from_xception = some ⟨2, "softmax"⟩ ∧
    (∀ (phi : BackboneArch → List ℝ → List ℝ) (W : List (List ℝ)) (b x : List ℝ),
      create_model_from_resnet.forward phi W b x =
        softmax (List.zipWith (fun wrow bi => dotR wrow (phi .resnet50 x) + bi) W b)) ∧
    (∀ (phi : BackboneArch → List ℝ → List ℝ) (W : List (List ℝ)) (b x : List ℝ),
      create_model_from_xception.forward phi W b x =
        softmax (List.zipWith (fun wrow bi => dotR wrow (phi .xception x) + bi) W b)) := by
  exact ⟨rfl, rfl, rfl, rfl, rfl, rfl, rfl, rfl, forward_resnet_eq, forward_xception_eq⟩

/-- C3: the classification head of either model is a Dense layer with 2
output nodes and softmax activation, and whenever the head parameters have
the matching shape (2 rows, 2 biases) the forward output is a vector of
exactly 2 scores, each in the interval from 0 to 1, summing to 1. -/
theorem model_output_is_two_class_distribution :
    headCfgOf create_model_from_resnet = some ⟨2, "softmax"⟩ ∧
    headCfgOf create_model_from_xception = some ⟨2, "softmax"⟩ ∧
    (∀ (phi : BackboneArch → List ℝ → List ℝ) (W : List (List ℝ)) (b x : List ℝ),
      W.length = 2 → b.length = 2 →
      ∀ m ∈ [create_model_from_resnet, create_model_from_xception],
        (m.forward phi W b x).length = 2 ∧
        (∀ p ∈ m.forward phi W b x, 0 ≤ p ∧ p ≤ 1) ∧
        (m.forward phi W b x).sum = 1) := by
  refine ⟨rfl, rfl, fun phi W b x hW hb m hm => ?_⟩
  have key : ∀ arch : BackboneArch,
      (softmax (List.zipWith (fun wrow bi => dotR wrow (phi arch x) + bi) W b)).length = 2 ∧
      (∀ p ∈ softmax (List.zipWith (fun wrow bi => dotR wrow (phi arch x) + bi) W b),
        0 ≤ p ∧ p ≤ 1) ∧
      (softmax (List.zipWith (fun wrow bi => dotR wrow (phi arch x) + bi) W b)).sum = 1 := by
    intro arch
    have hlen : (List.zipWith (fun wrow bi => dotR wrow (phi arch x) + bi) W b).length = 2 := by
      rw [List.length_zipWith, hW, hb]
      decide
    have hne : List.zipWith (fun wrow bi => dotR wrow (phi arch x) + bi) W b ≠ [] := by
      intro hnil
      rw [hnil] at hlen
      exact absurd hlen (by decide)
    exact ⟨by rw [softmax_length, hlen],
      fun p hp => softmax_mem_bounds _ p hp, softmax_sum_one _ hne⟩
  rcases List.mem_pair.mp hm with rfl | rfl
  · rw [forward_resnet_eq phi W b x]
    exact key .resnet50
  · rw [forward_xception_eq phi W b x]
    exact key .xception

/-- Witness for C3: the ResNet50 model with concrete 2-row head parameters
outputs a 2-entry probability vector. -/
theorem model_output_is_two_class_distribution_witness :
    (create_model_from_resnet.forward (fun _ _ => ([] : List ℝ))
        [[], []] [0, 0] []).length = 2 ∧
    (∀ p ∈ create_model_from_resnet.forward (fun _ _ => ([] : List ℝ))
        [[], []] [0, 0] [], 0 ≤ p ∧ p ≤ 1) ∧
    (create_model_from_resnet.forward (fun _ _ => ([] : List ℝ))
        [[], []] [0, 0] []).sum = 1 :=
  model_output_is_two_class_distribution.2.2 (fun _ _ => []) [[], []] [0, 0] []
    rfl rfl create_model_from_resnet (List.mem_cons_self _ _)

/-- C5: every sample the notebook generators yield is an image from one of
the two class subdirectories of the train (respectively val) directory,
resized to 224 by 224, preprocessed by the attached backbone preprocessing
function, labeled with a one-hot categorical vector, and random horizontal
flipping is the only augmentation switched on. -/
theorem generator_samples_resized_normalized_onehot :
    train_generator.directory = "./input/urban-and-rural-photos/train" ∧
    validation_generator.directory = "./input/urban-and-rural-photos/val" ∧
    train_generator.target_size = (224, 224) ∧
    validation_generator.target_size = (224, 224) ∧
    train_generator.class_mode = "categorical" ∧
    validation_generator.class_mode = "categorical" ∧
    found_class_count = 2 ∧
    (∀ g ∈ [data_generator_resnet, data_generator_xception],
      g.horizontal_flip = true ∧ g.vertical_flip = false ∧ g.rotation_range = 0 ∧
      g.width_shift_range = 0 ∧ g.height_shift_range = 0 ∧ g.zoom_range = 0 ∧
      g.preprocessing.isSome = true) ∧
    (∀ g ∈ [data_generator_resnet, data_generator_xception],
      ∀ f ∈ [train_generator, validation_generator],
      ∀ (pf : ℚ → ℚ) (img : Image) (c : Nat) (coin : Bool),
        c < found_class_count →
        (mkSample g f pf found_class_count img c coin).1.height = 224 ∧
        (mkSample g f pf found_class_count img c coin).1.width = 224 ∧
        (mkSample g f pf found_class_count img c coin).2 = oneHot 2 c ∧
        (oneHot 2 c).length = 2 ∧ (oneHot 2 c).sum = 1 ∧
        ((mkSample g f pf found_class_count img c coin).1 =
            applyPre pf (resize img 224 224) ∨
          (mkSample g f pf found_class_count img c coin).1 =
            hflip (applyPre pf (resize img 224 224)))) := by
  refine ⟨rfl, rfl, rfl, rfl, rfl, rfl, rfl, ?_, ?_⟩
  · intro g hg
    rcases List.mem_pair.mp hg with rfl | rfl <;>
      exact ⟨rfl, rfl, rfl, rfl, rfl, rfl, rfl⟩
  · intro g hg f hf pf img c coin hc
    have hc2 : c < 2 := hc
    have honeL : (oneHot 2 c).length = 2 := by simp [oneHot]
    have honeS : (oneHot 2 c).sum = 1 := by
      interval_cases c <;> norm_num [oneHot, List.range_succ]
    rcases List.mem_pair.mp hg with rfl | rfl <;>
      rcases List.mem_pair.mp hf with rfl | rfl <;>
      cases coin <;>
      exact ⟨rfl, rfl, rfl, honeL, honeS,
        by first | exact Or.inl rfl | exact Or.inr rfl⟩

/-- Witness for C5: a concrete one-pixel image from class 0 through the
ResNet50 training generator. -/
theorem generator_samples_witness :
    (mkSample data_generator_resnet train_generator id found_class_count
        ⟨1, 1, fun _ _ => 0⟩ 0 false).1.height = 224 ∧
    (mkSample data_generator_resnet train_generator id found_class_count
        ⟨1, 1, fun _ _ => 0⟩ 0 false).1.width = 224 ∧
    (mkSample data_generator_resnet train_generator id found_class_count
        ⟨1, 1, fun _ _ => 0⟩ 0 false).2 = oneHot 2 0 ∧
    (oneHot 2 0).length = 2 ∧ (oneHot 2 0).sum = 1 ∧
    ((mkSample data_generator_resnet train_generator id found_class_count
        ⟨1, 1, fun _ _ => 0⟩ 0 false).1 =
        applyPre id (resize ⟨1, 1, fun _ _ => 0⟩ 224 224) ∨
      (mkSample data_generator_resnet train_generator id found_class_count
        ⟨1, 1, fun _ _ => 0⟩ 0 false).1 =
        hflip (applyPre id (resize ⟨1, 1, fun _ _ => 0⟩ 224 224))) :=
  generator_samples_resized_normalized_onehot.2.2.2.2.2.2.2.2
    data_generator_resnet (List.mem_cons_self _ _)
    train_generator (List.mem_cons_self _ _)
    id ⟨1, 1, fun _ _ => 0⟩ 0 false (by decide)

/-- The number of correct predictions is at most the number of predictions. -/
theorem countCorrect_le_length (preds labels : List Nat) :
    countCorrect preds labels ≤ preds.length := by
  induction preds generalizing labels with
  | nil => simp [countCorrect]
  | cons p ps ih =>
    cases labels with
    | nil => simp [countCorrect]
    | cons l ls =>
      have h := ih ls
      simp only [countCorrect, List.zipWith_cons_cons, List.sum_cons,
        List.length_cons] at h ⊢
      split <;> omega

/-- C6: both models are compiled with the sgd optimizer, the categorical
cross-entropy loss, and the accuracy metric; accuracy is the fraction of
correct predictions and always lies between 0 and 1. -/
theorem compiled_sgd_crossentropy_accuracy :
    compile_call_resnet = ⟨"sgd", "categorical_crossentropy", ["accuracy"]⟩ ∧
    compile_call_xception = ⟨"sgd", "categorical_crossentropy", ["accuracy"]⟩ ∧
    "accuracy" ∈ compile_call_resnet.metrics ∧
    "accuracy" ∈ compile_call_xception.metrics ∧
    (∀ preds labels : List Nat,
      accuracy preds labels = (countCorrect preds labels : ℚ) / (preds.length : ℚ) ∧
      0 ≤ accuracy preds labels ∧ accuracy preds labels ≤ 1) := by
  refine ⟨rfl, rfl, List.mem_cons_self _ _, List.mem_cons_self _ _,
    fun preds labels => ⟨rfl, ?_, ?_⟩⟩
  · exact div_nonneg (Nat.cast_nonneg _) (Nat.cast_nonneg _)
  · rcases Nat.eq_zero_or_pos preds.length with h | h
    · rw [accuracy, h]
      norm_num
    · have hpos : (0 : ℚ) < (preds.length : ℚ) := by exact_mod_cast h
      rw [accuracy, div_le_one hpos]
      exact_mod_cast countCorrect_le_length preds labels

/-- C7: the ResNet50 backbone is loaded from the local no-top weights file
and the Xception backbone from the imagenet weights, both with
include_top = false (so the pretrained prediction layer is excluded), both
with pretrained rather than random weights, and both left frozen. -/
theorem backbones_loaded_pretrained_no_top :
    backboneCfgOf create_model_from_resnet =
      some ⟨.resnet50, false, "avg",
        some "./input/resnet50/resnet50_weights_tf_dim_ordering_tf_kernels_notop.h5"⟩ ∧
    backboneCfgOf create_model_from_xception =
      some ⟨.xception, false, "avg", some "imagenet"⟩ ∧
    (backboneCfgOf create_model_from_resnet).map (fun c => c.weights.isSome) =
      some true ∧
    (backboneCfgOf create_model_from_xception).map (fun c => c.weights.isSome) =
      some true ∧
    trainableAt create_model_from_resnet 0 = false ∧
    trainableAt create_model_from_xception 0 = false := by
  exact ⟨rfl, rfl, rfl, rfl, by decide, by decide⟩

/-- C8: the notebook fixes the python, numpy and tensorflow seeds to 123 in
its first code cell, before any operation that draws randomness, and two runs
drawing their head-weight, shuffling and flip choices from that seed make
identical choices. -/
theorem seeded_runs_make_identical_choices :
    notebookOps.get? 0 = some (.setSeeds 123) ∧
    setAllSeeds seed = ⟨123, 123, 123⟩ ∧
    (∀ (i : Nat) (op : NotebookOp), notebookOps.get? i = some op →
      op.usesRandomness = true → 1 ≤ i) ∧
    (∀ (nI nS nF : Nat) (r₁ r₂ : RunChoices),
      r₁ = runChoices seed nI nS nF → r₂ = runChoices seed nI nS nF →
      r₁ = r₂) := by
  refine ⟨rfl, rfl, fun i op h hr => ?_, fun nI nS nF r₁ r₂ h₁ h₂ => h₁.trans h₂.symm⟩
  cases i with
  | zero =>
    rw [show notebookOps.get? 0 = some (.setSeeds 123) from rfl] at h
    cases h
    cases hr
  | succ n => exact Nat.succ_le_succ (Nat.zero_le n)

/-- Witness for C8 at a concrete randomness-using cell and one draw of each
kind. -/
theorem seeded_runs_witness :
    1 ≤ 1 ∧ runChoices seed 1 1 1 = runChoices seed 1 1 1 :=
  ⟨seeded_runs_make_identical_choices.2.2.1 1 (.buildModel .resnet50) rfl rfl,
   seeded_runs_make_identical_choices.2.2.2 1 1 1 _ _ rfl rfl⟩

/-- C10: both backbones output a 2048-dimensional feature vector under
pooling = avg, so the Dense head of either model has 2048 * 2 + 2 = 4098
parameters, and these are the only trainable parameters; the remaining
parameters are exactly the frozen backbone parameters. -/
theorem head_is_only_trainable_4098_params :
    featureDim .resnet50 = 2048 ∧ featureDim .xception = 2048 ∧
    layerParamCount (Dense 2 "softmax") (featureDim .resnet50) = 2048 * 2 + 2 ∧
    2048 * 2 + 2 = 4098 ∧
    (∀ inDim : Nat,
      trainableParams create_model_from_resnet inDim = 4098 ∧
      trainableParams create_model_from_xception inDim = 4098 ∧
      totalParams create_model_from_resnet inDim =
        backboneParamCount .resnet50 + 4098 ∧
      totalParams create_model_from_xception inDim =
        backboneParamCount .xception + 4098) := by
  refine ⟨rfl, rfl, rfl, rfl, fun inDim => ?_⟩
  simp [trainableParams, totalParams, paramTable, create_model_from_resnet,
    create_model_from_xception, Sequential, SequentialModel.addLayer,
    SequentialModel.setLayerTrainable, modifyNth, ResNet50, Xception, Dense,
    layerParamCount, layerOutDim, featureDim, backboneParamCount,
    LayerCfg.isTrainable, LayerCfg.setTrainable]

end TransferLearning
